import Mathlib

/-!
Shallow embedding of `src/services/agent/agent.py` (voice inbox agent):
the conversational-turn orchestration (`ask_inbox`), the side-channel
publisher (`publish_sources`), the session TTS configuration controller
(`update_tts_config`) and the control-message handler (`_on_data`).

Python JSON values are modelled by `JVal`; Python truthiness, `dict.get`
(with and without default) and `str()` conversion are modelled explicitly.
A Python exception escaping a function is modelled by `Except PyErr`;
side effects (the HTTP ask call, the interim `say`, the per-attempt sleep,
each poll GET, each data-channel publish, warning logs) are recorded in an
event trace in execution order.
-/

/-- A JSON value as Python's `json.loads` produces it: `null`, booleans,
numbers (modelled as integers; no claim inspects numeric values), strings,
arrays and objects (assoc lists with distinct keys). -/
inductive JVal where
  | null : JVal
  | bool (b : Bool) : JVal
  | num (n : Int) : JVal
  | str (s : String) : JVal
  | arr (xs : List JVal) : JVal
  | obj (fs : List (String × JVal)) : JVal
deriving Repr

/-- Python truthiness of a JSON value (`bool(x)`): `None`, `False`, `0`,
`""`, `[]` and the empty dict are falsy, everything else truthy. -/
def truthy : JVal → Bool
  | .null => false
  | .bool b => b
  | .num n => n != 0
  | .str s => s != ""
  | .arr xs => !xs.isEmpty
  | .obj fs => !fs.isEmpty

/-- Truthiness of an optional value: Python treats a missing key
(`dict.get` returning `None`) as falsy. -/
def otruthy : Option JVal → Bool
  | none => false
  | some j => truthy j

/-- First-match association-list lookup: Python dict keys are unique, so
this models `d[k]` membership and `d.get(k)`. -/
def lookupField : List (String × JVal) → String → Option JVal
  | [], _ => none
  | (k, v) :: rest, key => if k = key then some v else lookupField rest key

/-- Python `d.get(k, default)`: the default is used only when the key is
absent, not when the stored value is falsy. -/
def getD (fs : List (String × JVal)) (k : String) (d : JVal) : JVal :=
  match lookupField fs k with
  | some v => v
  | none => d

/-- Whether an optional JSON value equals a given Python string under
Python `==` (true only for a JSON string with the same characters). -/
def optIsStr : Option JVal → String → Bool
  | some (.str s), k => s = k
  | _, _ => false

mutual

/-- Python `str()` of a JSON value, as used by f-string interpolation.
Strings pass through unchanged; containers are rendered in a repr-like
form (no claim depends on the container rendering). -/
def pyStr : JVal → String
  | .null => "None"
  | .bool true => "True"
  | .bool false => "False"
  | .num n => toString n
  | .str s => s
  | .arr xs => "[" ++ pyStrList xs ++ "]"
  | .obj fs => "dict(" ++ pyStrFields fs ++ ")"

/-- Comma-separated rendering of an array's elements. -/
def pyStrList : List JVal → String
  | [] => ""
  | [x] => pyStr x
  | x :: y :: rest => pyStr x ++ ", " ++ pyStrList (y :: rest)

/-- Comma-separated rendering of an object's fields. -/
def pyStrFields : List (String × JVal) → String
  | [] => ""
  | [(k, v)] => k ++ ": " ++ pyStr v
  | (k, v) :: f :: rest => k ++ ": " ++ pyStr v ++ ", " ++ pyStrFields (f :: rest)

end

/-- A Python exception escaping the modelled code: an `httpx` transport
error, `response.json()` failing to decode, or `AttributeError` from
calling `.get` on a non-dict value. -/
inductive PyErr where
  | transportError : PyErr
  | jsonDecodeError : PyErr
  | attributeError : PyErr
deriving Repr, DecidableEq

/-- Mutable TTS configuration state of `InboxAgent`, with two observer
counters: `engineGen` counts reconstructions of the speech engine
(assignments to `self._tts`) and `logCount` counts emitted log entries. -/
structure TTSState where
  tts_model : String
  tts_voice : String
  engineGen : Nat
  logCount : Nat
deriving Repr, DecidableEq

/-- Python `a or b` for an optional string argument: `None` and the empty
string are falsy, so both fall back to the default. -/
def pyOrStr : Option String → String → String
  | none, d => d
  | some s, d => if s = "" then d else s

/-- Embedding of `InboxAgent.update_tts_config(model=None, voice=None)`:
`next_model = model or self.tts_model`, same for voice; if the resulting
pair equals the current pair, return without reconstructing or logging;
otherwise store both fields, rebuild the TTS engine, and log once. -/
def update_tts_config (s : TTSState) (model : Option String) (voice : Option String) : TTSState :=
  let next_model := pyOrStr model s.tts_model
  let next_voice := pyOrStr voice s.tts_voice
  if next_model = s.tts_model ∧ next_voice = s.tts_voice then s
  else { tts_model := next_model, tts_voice := next_voice,
         engineGen := s.engineGen + 1, logCount := s.logCount + 1 }

/-- The LiveKit data topic carrying TTS configuration messages. -/
def TTS_CONFIG_TOPIC : String := "inbox.tts.config"

/-- The LiveKit data topic on which answer sources are published. -/
def SOURCES_TOPIC : String := "inbox.sources"

/-- Result of decoding an inbound data packet's raw bytes: either the
bytes decode as UTF-8 and parse as JSON (`ok`), or decoding or parsing
fails (`bad` — in the source both failures raise inside the same `try`
block and are logged and dropped together). -/
inductive PayloadDecode where
  | ok (j : JVal) : PayloadDecode
  | bad : PayloadDecode
deriving Repr

/-- An inbound LiveKit data packet as seen by the `data_received`
handler: its topic and its (already decode-classified) payload. -/
structure DataPacket where
  topic : String
  payload : PayloadDecode
deriving Repr

/-- Extraction of an optional string argument from a control message
field for the `update_tts_config(model=..., voice=...)` call: an absent
field is `None`; well-formed control messages carry string fields, and a
non-string value is modelled as absent. -/
def jstrArg : Option JVal → Option String
  | some (.str s) => some s
  | _ => none

/-- Embedding of the `_on_data` handler registered on `data_received`:
packets on other topics are ignored; an undecodable payload is logged
and dropped inside the handler's `try` block; then `config.get("type")`
is evaluated OUTSIDE that block, so a payload that decodes to a non-dict
JSON value raises `AttributeError` into the event dispatcher; a dict
whose `type` is not the string `tts_config` is dropped; otherwise
`update_tts_config` is called with the message's `model` and `voice`. -/
def on_data (s : TTSState) (p : DataPacket) : Except PyErr TTSState :=
  if p.topic ≠ TTS_CONFIG_TOPIC then .ok s
  else match p.payload with
  | .bad => .ok s
  | .ok config =>
    match config with
    | .obj fs =>
      if optIsStr (lookupField fs "type") "tts_config" then
        .ok (update_tts_config s (jstrArg (lookupField fs "model")) (jstrArg (lookupField fs "voice")))
      else .ok s
    | _ => .error .attributeError

/-- An effect performed during one conversational turn, in execution
order: the HTTP POST to the ask endpoint, the spoken interim
acknowledgment, the fixed sleep before a poll attempt, the i-th poll GET
for a job id, a data-channel publish of sources, and a warning log. -/
inductive Event where
  | askCall (question : String) : Event
  | sayAck (msg : JVal) : Event
  | sleepUnits (n : Nat) : Event
  | pollCall (jobId : String) (i : Nat) : Event
  | publish (sources : JVal) : Event
  | warnLog (what : String) : Event
deriving Repr

/-- An HTTP response as the code observes it through `httpx`: the status
code, the raw body text, and the body's JSON parse when `response.json()`
succeeds (`parsed = none` models a body that is not valid JSON). -/
structure HttpResp where
  status : Nat
  text : String
  parsed : Option JVal
deriving Repr

/-- One behaviour of the backend over one turn: the outcome of the ask
POST, the outcome of each poll GET by attempt index (`.error ()` models a
transport failure raising an `httpx` exception), and whether the
data-channel publish raises. -/
structure Env where
  askResult : Except Unit HttpResp
  pollResult : Nat → Except Unit HttpResp
  publishFails : Bool

/-- Embedding of the inner `publish_sources` helper: the publish is
attempted; any exception is caught and logged as a warning, so the
caller always continues. Returns the events the call emits. -/
def publish_sources (env : Env) (payload : JVal) : List Event :=
  if env.publishFails then [.publish payload, .warnLog "failed to publish sources"]
  else [.publish payload]

/-- Message extraction of the HTTP-error branch of `ask_inbox` (status
at least 400): inside a `try`, `response.json()` then
`data.get("error") or data.get("message") or "Unknown error"`; any
exception there (body not JSON, or JSON that is not a dict so `.get`
raises) falls back to `response.text or "Unknown error"`. -/
def errMessage (r : HttpResp) : String :=
  match r.parsed with
  | some (.obj fs) =>
    if otruthy (lookupField fs "error") then pyStr (getD fs "error" .null)
    else if otruthy (lookupField fs "message") then pyStr (getD fs "message" .null)
    else "Unknown error"
  | _ => if r.text = "" then "Unknown error" else r.text

/-- Python `str.strip()` with no argument: remove leading and trailing
whitespace (the small-talk phrases are ASCII, so ASCII whitespace
suffices for classification). -/
def pyStrip (s : String) : String :=
  ⟨((s.data.dropWhile Char.isWhitespace).reverse.dropWhile Char.isWhitespace).reverse⟩

/-- Python `str.lower()` over the characters of the string (the
small-talk phrases are ASCII). -/
def pyLower (s : String) : String := ⟨s.data.map Char.toLower⟩

/-- The set of greetings handled locally (`SMALL_TALK` in the source). -/
def SMALL_TALK : List String :=
  ["hi", "hello", "hey", "good morning", "good afternoon", "good evening",
   "how are you", "what's up", "whats up", "yo"]

/-- Python `job_data.get("sources") or []` (also used on the immediate
path): the stored value when truthy, otherwise the empty list. -/
def sourcesOrEmpty (fs : List (String × JVal)) : JVal :=
  let src := lookupField fs "sources"
  if otruthy src then src.getD .null else .arr []

/-- The events of one poll attempt: the fixed 2-unit sleep, then the GET
for the job id at attempt index `i`. -/
def pollAttempt (jid : String) (i : Nat) : List Event := [.sleepUnits 2, .pollCall jid i]

/-- Embedding of the polling loop `for _ in range(45)` of `ask_inbox`,
from attempt index `i` with `fuel` attempts remaining. Each iteration
sleeps 2 units then issues the GET; a GET transport failure raises out
of the loop; a non-200 status continues to the next attempt; a 200 body
that is not JSON raises; a 200 JSON body that is not a dict raises on
`job_data.get("status")`; status `done` publishes truthy sources and
returns the answer (default empty string); status `error` returns the
error sentence; any other status continues. Exhausted fuel returns the
fixed timeout message. -/
def pollLoop (env : Env) (jid : String) (i : Nat) : Nat → List Event × Except PyErr JVal
  | 0 => ([], .ok (.str "That is taking longer than expected. Please try again."))
  | fuel + 1 =>
    let pre : List Event := pollAttempt jid i
    match env.pollResult i with
    | .error _ => (pre, .error .transportError)
    | .ok r =>
      if r.status ≠ 200 then
        let rest := pollLoop env jid (i + 1) fuel
        (pre ++ rest.1, rest.2)
      else
        match r.parsed with
        | none => (pre, .error .jsonDecodeError)
        | some (.obj fs) =>
          if optIsStr (lookupField fs "status") "done" then
            let sources := sourcesOrEmpty fs
            let pubEvs := if truthy sources then publish_sources env sources else []
            (pre ++ pubEvs, .ok (getD fs "answer" (.str "")))
          else if optIsStr (lookupField fs "status") "error" then
            (pre, .ok (.str ("There was an error: " ++ pyStr (getD fs "error" (.str "unknown")))))
          else
            let rest := pollLoop env jid (i + 1) fuel
            (pre ++ rest.1, rest.2)
        | some _ => (pre, .error .attributeError)

/-- Embedding of the `ask_inbox` tool. A question whose stripped,
lowercased form is in `SMALL_TALK` returns the fixed guidance string
with no backend call. Otherwise the ask POST is issued: a transport
failure raises; status at least 400 returns the error sentence built by
`errMessage`; a success body that is not JSON raises on
`response.json()`; a JSON body that is not a dict raises on
`data.get("status")`. A dict with status `processing` speaks the
acknowledgment, then returns the fixed failure string if `jobId` is
falsy and otherwise runs `pollLoop` for at most 45 attempts. Any other
dict publishes truthy sources and returns the answer (default
`No answer returned.`). -/
def ask_inbox (env : Env) (question : String) : List Event × Except PyErr JVal :=
  let normalized := pyLower (pyStrip question)
  if SMALL_TALK.contains normalized then
    ([], .ok (.str "Hi! Ask me anything about your inbox, emails, or attachments."))
  else
    match env.askResult with
    | .error _ => ([.askCall question], .error .transportError)
    | .ok r =>
      if r.status ≥ 400 then
        ([.askCall question], .ok (.str ("I couldn't reach the inbox service: " ++ errMessage r)))
      else
        match r.parsed with
        | none => ([.askCall question], .error .jsonDecodeError)
        | some (.obj fs) =>
          if optIsStr (lookupField fs "status") "processing" then
            let ack := getD fs "message" (.str "This may take a minute.")
            let jobId := lookupField fs "jobId"
            if !otruthy jobId then
              ([.askCall question, .sayAck ack], .ok (.str "I couldn't start the background job."))
            else
              let jid := pyStr (jobId.getD .null)
              let rest := pollLoop env jid 0 45
              ([.askCall question, .sayAck ack] ++ rest.1, rest.2)
          else
            let sources := sourcesOrEmpty fs
            let pubEvs := if truthy sources then publish_sources env sources else []
            ([.askCall question] ++ pubEvs, .ok (getD fs "answer" (.str "No answer returned.")))
        | some _ => ([.askCall question], .error .attributeError)

/-- Recognizer for poll GET events in a trace. -/
def isPollEvent : Event → Bool
  | .pollCall _ _ => true
  | _ => false

/-- Recognizer for side-channel publish events in a trace. -/
def isPublishEvent : Event → Bool
  | .publish _ => true
  | _ => false

/-- Number of poll GET calls recorded in a trace. -/
def countPolls (evs : List Event) : Nat := evs.countP isPollEvent

/-- Number of side-channel publishes recorded in a trace. -/
def countPublishes (evs : List Event) : Nat := evs.countP isPublishEvent

/-- A poll attempt outcome that makes the loop continue: a response was
received (no transport failure) and it is either non-200, or a 200 JSON
dict whose status is neither `done` nor `error`. -/
def NonTerminalPoll (pr : Except Unit HttpResp) : Prop :=
  ∃ r, pr = .ok r ∧
    (r.status ≠ 200 ∨ ∃ fs, r.parsed = some (.obj fs) ∧
      optIsStr (lookupField fs "status") "done" = false ∧
      optIsStr (lookupField fs "status") "error" = false)

/-- A poll attempt outcome on which the loop body cannot raise: a
response was received, and if its status is 200 its body is a JSON
dict. -/
def GoodPoll (pr : Except Unit HttpResp) : Prop :=
  ∃ r, pr = .ok r ∧ (r.status ≠ 200 ∨ ∃ fs, r.parsed = some (.obj fs))

/-- First usable entry of a preference chain of candidate messages, with
a final fallback. -/
def firstUsable : List (Option String) → String → String
  | [], d => d
  | none :: rest, d => firstUsable rest d
  | some s :: _, _ => s

/-- Candidate message from the body's `error` field: usable when the
body parses as a JSON dict whose `error` entry is truthy. -/
def errFieldMsg (r : HttpResp) : Option String :=
  match r.parsed with
  | some (.obj fs) =>
    if otruthy (lookupField fs "error") then some (pyStr (getD fs "error" .null)) else none
  | _ => none

/-- Candidate message from the body's `message` field: usable when the
body parses as a JSON dict whose `message` entry is truthy. -/
def msgFieldMsg (r : HttpResp) : Option String :=
  match r.parsed with
  | some (.obj fs) =>
    if otruthy (lookupField fs "message") then some (pyStr (getD fs "message" .null)) else none
  | _ => none

/-- Candidate message from the raw body text: consulted only when body
parsing fails (the body is not JSON, or is JSON but not a dict, so the
field lookup raises), and usable when the text is nonempty. -/
def rawTextMsg (r : HttpResp) : Option String :=
  match r.parsed with
  | some (.obj _) => none
  | _ => if r.text = "" then none else some r.text

/-- Extraction written after the spec's words for the HTTP-error branch:
prefer the `error` field, then the `message` field, then the raw body
text, then the fixed `Unknown error` fallback when body parsing fails. -/
def specErrMessage (r : HttpResp) : String :=
  firstUsable [errFieldMsg r, msgFieldMsg r, rawTextMsg r] "Unknown error"

/-- Sequential application of a list of `update_tts_config` calls, each
with its optional model and voice argument. -/
def run_updates : TTSState → List (Option String × Option String) → TTSState
  | s, [] => s
  | s, (m, v) :: rest => run_updates (update_tts_config s m v) rest

/-- An ask response that starts a background job `j1`. -/
def procAskResp : HttpResp :=
  { status := 200, text := "", parsed := some (.obj [("status", .str "processing"), ("jobId", .str "j1")]) }

/-- A poll response whose job is still pending. -/
def pendingResp : HttpResp :=
  { status := 200, text := "", parsed := some (.obj [("status", .str "pending")]) }

/-- A poll response whose job finished with an answer and one source. -/
def doneResp : HttpResp :=
  { status := 200, text := "",
    parsed := some (.obj [("status", .str "done"), ("answer", .str "Done."),
                          ("sources", .arr [.obj [("id", .str "m1")]])]) }

/-- Backend behaviour: job started, then every poll GET suffers a
transport failure. -/
def envPollRaises : Env :=
  { askResult := .ok procAskResp, pollResult := fun _ => .error (), publishFails := false }

/-- Backend behaviour: job started, then every poll reports pending. -/
def envAllPending : Env :=
  { askResult := .ok procAskResp, pollResult := fun _ => .ok pendingResp, publishFails := false }

/-- Backend behaviour: job started, pending on attempts 0 to 2, done on
attempt 3. -/
def envDoneAt3 : Env :=
  { askResult := .ok procAskResp,
    pollResult := fun i => if i < 3 then .ok pendingResp else .ok doneResp,
    publishFails := false }

/-- An ask response with HTTP status 404 and an `error` field. -/
def resp404 : HttpResp :=
  { status := 404, text := "", parsed := some (.obj [("error", .str "not found")]) }

/-- Backend behaviour: the ask POST returns 404 with an `error` field. -/
def env404 : Env :=
  { askResult := .ok resp404, pollResult := fun _ => .error (), publishFails := false }

/-- Backend behaviour: every request suffers a transport failure. -/
def envUnreachable : Env :=
  { askResult := .error (), pollResult := fun _ => .error (), publishFails := false }

/-- An immediate ask response with an answer and one source. -/
def immResp : HttpResp :=
  { status := 200, text := "",
    parsed := some (.obj [("answer", .str "You have 3 unread emails."),
                          ("sources", .arr [.obj [("id", .str "m1")]])]) }

/-- Backend behaviour: an immediate answer with one source. -/
def envImmediate : Env :=
  { askResult := .ok immResp, pollResult := fun _ => .error (), publishFails := false }

/-- A processing ask response that carries no `jobId`. -/
def noJobResp : HttpResp :=
  { status := 200, text := "", parsed := some (.obj [("status", .str "processing")]) }

/-- Backend behaviour: a processing response that carries no `jobId`. -/
def envNoJobId : Env :=
  { askResult := .ok noJobResp, pollResult := fun _ => .error (), publishFails := false }

/-- The agent's initial TTS configuration (the source's env defaults). -/
def baseTTS : TTSState :=
  { tts_model := "gpt-4o-mini-tts", tts_voice := "coral", engineGen := 0, logCount := 0 }

/-- A control packet on the TTS topic whose payload decodes to a JSON
array (valid JSON, but not a dict). -/
def arrayPayloadPacket : DataPacket := { topic := TTS_CONFIG_TOPIC, payload := .ok (.arr []) }

/-- A control packet on the TTS topic whose payload is a dict with an
unrecognized declared type. -/
def wrongTypePacket : DataPacket :=
  { topic := TTS_CONFIG_TOPIC, payload := .ok (.obj [("type", .str "sources")]) }

theorem pollLoop_step_nonTerminal (env : Env) (jid : String) (i fuel : Nat)
    (h : NonTerminalPoll (env.pollResult i)) :
    pollLoop env jid i (fuel + 1) =
      (pollAttempt jid i ++ (pollLoop env jid (i + 1) fuel).1,
       (pollLoop env jid (i + 1) fuel).2) := by
  obtain ⟨r, hr, hcase⟩ := h
  by_cases hs : r.status = 200
  · have hobj : ∃ fs, r.parsed = some (.obj fs) ∧
        optIsStr (lookupField fs "status") "done" = false ∧
        optIsStr (lookupField fs "status") "error" = false := by
      rcases hcase with hne | hobj
      · exact absurd hs hne
      · exact hobj
    obtain ⟨fs, hp, hd, he⟩ := hobj
    simp [pollLoop, hr, hs, hp, hd, he]
  · simp [pollLoop, hr, hs]

theorem pollLoop_skip (env : Env) (jid : String) (k : Nat) :
    ∀ start fuel, k ≤ fuel →
    (∀ j, j < k → NonTerminalPoll (env.pollResult (start + j))) →
    pollLoop env jid start fuel =
      (((List.range' start k).flatMap (pollAttempt jid)) ++ (pollLoop env jid (start + k) (fuel - k)).1,
       (pollLoop env jid (start + k) (fuel - k)).2) := by
  induction k with
  | zero => intro start fuel _ _; simp
  | succ k ih =>
    intro start fuel hk h
    obtain ⟨f, rfl⟩ : ∃ f, fuel = f + 1 := ⟨fuel - 1, by omega⟩
    have h0 : NonTerminalPoll (env.pollResult start) := by
      have := h 0 (Nat.succ_pos k); simpa using this
    rw [pollLoop_step_nonTerminal env jid start f h0]
    have hrest := ih (start + 1) f (by omega) (fun j hj => by
      have := h (j + 1) (by omega)
      simpa [Nat.add_assoc, Nat.add_comm 1 j] using this)
    rw [hrest]
    have e1 : start + (k + 1) = start + 1 + k := by omega
    have e2 : f + 1 - (k + 1) = f - k := by omega
    rw [List.range'_succ, e1, e2]
    simp [List.append_assoc]

theorem pollLoop_done (env : Env) (jid : String) (i fuel : Nat) (r : HttpResp)
    (fs : List (String × JVal))
    (hr : env.pollResult i = .ok r) (h200 : r.status = 200)
    (hp : r.parsed = some (.obj fs))
    (hd : optIsStr (lookupField fs "status") "done" = true) :
    pollLoop env jid i (fuel + 1) =
      (pollAttempt jid i ++
        (if truthy (sourcesOrEmpty fs) then publish_sources env (sourcesOrEmpty fs) else []),
       .ok (getD fs "answer" (.str ""))) := by
  simp [pollLoop, hr, h200, hp, hd, sourcesOrEmpty]

theorem pollLoop_error (env : Env) (jid : String) (i fuel : Nat) (r : HttpResp)
    (fs : List (String × JVal))
    (hr : env.pollResult i = .ok r) (h200 : r.status = 200)
    (hp : r.parsed = some (.obj fs))
    (hd : optIsStr (lookupField fs "status") "done" = false)
    (he : optIsStr (lookupField fs "status") "error" = true) :
    pollLoop env jid i (fuel + 1) =
      (pollAttempt jid i,
       .ok (.str ("There was an error: " ++ pyStr (getD fs "error" (.str "unknown"))))) := by
  simp [pollLoop, hr, h200, hp, hd, he]

theorem countPolls_append (l1 l2 : List Event) :
    countPolls (l1 ++ l2) = countPolls l1 + countPolls l2 := by
  simp [countPolls, List.countP_append]

theorem countPolls_flatMap_pollAttempt (jid : String) (xs : List Nat) :
    countPolls (xs.flatMap (pollAttempt jid)) = xs.length := by
  induction xs with
  | nil => simp [countPolls]
  | cons x rest ih =>
    simp only [List.flatMap_cons, countPolls_append, ih]
    simp [countPolls, pollAttempt, isPollEvent, Nat.add_comm]

theorem pollLoop_ok_of_good (env : Env) (jid : String) :
    ∀ fuel start, (∀ j, j < fuel → GoodPoll (env.pollResult (start + j))) →
    ∃ v, (pollLoop env jid start fuel).2 = .ok v := by
  intro fuel
  induction fuel with
  | zero =>
    intro start _
    exact ⟨.str "That is taking longer than expected. Please try again.", rfl⟩
  | succ f ih =>
    intro start h
    obtain ⟨r, hr, hcase⟩ := h 0 (Nat.succ_pos f)
    rw [Nat.add_zero] at hr
    have hrest : ∀ j, j < f → GoodPoll (env.pollResult (start + 1 + j)) := fun j hj => by
      have := h (j + 1) (by omega)
      simpa [Nat.add_assoc, Nat.add_comm 1 j] using this
    by_cases hs : r.status = 200
    · have hobj : ∃ fs, r.parsed = some (.obj fs) := by
        rcases hcase with hne | hobj
        · exact absurd hs hne
        · exact hobj
      obtain ⟨fs, hp⟩ := hobj
      by_cases hd : optIsStr (lookupField fs "status") "done" = true
      · exact ⟨getD fs "answer" (.str ""), by simp [pollLoop, hr, hs, hp, hd]⟩
      · have hd' : optIsStr (lookupField fs "status") "done" = false := by simpa using hd
        by_cases he : optIsStr (lookupField fs "status") "error" = true
        · exact ⟨.str ("There was an error: " ++ pyStr (getD fs "error" (.str "unknown"))),
            by simp [pollLoop, hr, hs, hp, hd', he]⟩
        · have he' : optIsStr (lookupField fs "status") "error" = false := by simpa using he
          obtain ⟨v, hv⟩ := ih (start + 1) hrest
          exact ⟨v, by simp [pollLoop, hr, hs, hp, hd', he', hv]⟩
    · obtain ⟨v, hv⟩ := ih (start + 1) hrest
      exact ⟨v, by simp [pollLoop, hr, hs, hv]⟩

theorem ask_inbox_processing_unfold (env : Env) (q : String) (r : HttpResp)
    (fs : List (String × JVal))
    (hq : pyLower (pyStrip q) ∉ SMALL_TALK)
    (hask : env.askResult = .ok r)
    (hlt : r.status < 400)
    (hp : r.parsed = some (.obj fs))
    (hproc : optIsStr (lookupField fs "status") "processing" = true)
    (hjob : otruthy (lookupField fs "jobId") = true) :
    ask_inbox env q =
      (Event.askCall q :: Event.sayAck (getD fs "message" (.str "This may take a minute.")) ::
        (pollLoop env (pyStr ((lookupField fs "jobId").getD .null)) 0 45).1,
       (pollLoop env (pyStr ((lookupField fs "jobId").getD .null)) 0 45).2) := by
  have hge : ¬ (r.status ≥ 400) := by omega
  simp [ask_inbox, hq, hask, hge, hp, hproc, hjob]

/-- C5: a question whose stripped, lowercased form is in the fixed
small-talk set returns the fixed greeting-guidance string, with an empty
effect trace: no ask request and no poll are issued. -/
theorem ask_inbox_small_talk_short_circuit (env : Env) (q : String)
    (hq : pyLower (pyStrip q) ∈ SMALL_TALK) :
    ask_inbox env q =
      ([], .ok (.str "Hi! Ask me anything about your inbox, emails, or attachments.")) := by
  simp [ask_inbox, hq]

theorem ask_inbox_small_talk_short_circuit_witness :
    pyLower (pyStrip " Hello ") ∈ SMALL_TALK ∧
    ask_inbox envUnreachable " Hello " =
      ([], .ok (.str "Hi! Ask me anything about your inbox, emails, or attachments.")) :=
  ⟨by decide, ask_inbox_small_talk_short_circuit envUnreachable " Hello " (by decide)⟩

/-- C7: a processing ask response whose `jobId` is missing (Python-falsy)
ends the turn at once with the fixed failure string; the trace holds the
ask call and the spoken acknowledgment and no poll call at all. -/
theorem ask_inbox_processing_without_jobid (env : Env) (q : String) (r : HttpResp)
    (fs : List (String × JVal))
    (hq : pyLower (pyStrip q) ∉ SMALL_TALK)
    (hask : env.askResult = .ok r)
    (hlt : r.status < 400)
    (hp : r.parsed = some (.obj fs))
    (hproc : optIsStr (lookupField fs "status") "processing" = true)
    (hjob : otruthy (lookupField fs "jobId") = false) :
    ask_inbox env q =
      ([.askCall q, .sayAck (getD fs "message" (.str "This may take a minute."))],
       .ok (.str "I couldn't start the background job.")) ∧
    countPolls (ask_inbox env q).1 = 0 := by
  have hge : ¬ (r.status ≥ 400) := by omega
  have h1 : ask_inbox env q =
      ([.askCall q, .sayAck (getD fs "message" (.str "This may take a minute."))],
       .ok (.str "I couldn't start the background job.")) := by
    simp [ask_inbox, hq, hask, hge, hp, hproc, hjob]
  refine ⟨h1, ?_⟩
  rw [h1]
  simp [countPolls, isPollEvent]

theorem ask_inbox_processing_without_jobid_witness :
    ask_inbox envNoJobId "summarize the report" =
      ([.askCall "summarize the report", .sayAck (.str "This may take a minute.")],
       .ok (.str "I couldn't start the background job.")) := by
  have h := ask_inbox_processing_without_jobid envNoJobId "summarize the report" noJobResp
    [("status", .str "processing")] (by decide) rfl (by decide) rfl (by decide) (by decide)
  exact h.1

theorem errMessage_eq_spec (r : HttpResp) : errMessage r = specErrMessage r := by
  rcases hp : r.parsed with _ | j
  · by_cases ht : r.text = "" <;>
      simp [errMessage, specErrMessage, errFieldMsg, msgFieldMsg, rawTextMsg, firstUsable, hp, ht]
  · cases j with
    | obj fs =>
      by_cases he : otruthy (lookupField fs "error") = true
      · simp [errMessage, specErrMessage, errFieldMsg, msgFieldMsg, rawTextMsg, firstUsable, hp, he]
      · by_cases hm : otruthy (lookupField fs "message") = true <;>
          simp [errMessage, specErrMessage, errFieldMsg, msgFieldMsg, rawTextMsg, firstUsable,
            hp, he, hm]
    | null =>
      by_cases ht : r.text = "" <;>
        simp [errMessage, specErrMessage, errFieldMsg, msgFieldMsg, rawTextMsg, firstUsable, hp, ht]
    | bool b =>
      by_cases ht : r.text = "" <;>
        simp [errMessage, specErrMessage, errFieldMsg, msgFieldMsg, rawTextMsg, firstUsable, hp, ht]
    | num n =>
      by_cases ht : r.text = "" <;>
        simp [errMessage, specErrMessage, errFieldMsg, msgFieldMsg, rawTextMsg, firstUsable, hp, ht]
    | str s =>
      by_cases ht : r.text = "" <;>
        simp [errMessage, specErrMessage, errFieldMsg, msgFieldMsg, rawTextMsg, firstUsable, hp, ht]
    | arr xs =>
      by_cases ht : r.text = "" <;>
        simp [errMessage, specErrMessage, errFieldMsg, msgFieldMsg, rawTextMsg, firstUsable, hp, ht]

/-- C4: every ask response with HTTP status at least 400 returns exactly
the sentence `I couldn't reach the inbox service: ` followed by the
message extracted per the spec's preference chain (`error` field, then
`message` field, then raw body text, then `Unknown error` when body
parsing fails), with no further backend calls. -/
theorem ask_inbox_http_error_message_extraction (env : Env) (q : String) (r : HttpResp)
    (hq : pyLower (pyStrip q) ∉ SMALL_TALK)
    (hask : env.askResult = .ok r)
    (h400 : 400 ≤ r.status) :
    ask_inbox env q =
      ([.askCall q], .ok (.str ("I couldn't reach the inbox service: " ++ specErrMessage r))) := by
  have h : ask_inbox env q =
      ([.askCall q], .ok (.str ("I couldn't reach the inbox service: " ++ errMessage r))) := by
    simp [ask_inbox, hq, hask, ge_iff_le, h400]
  rw [h, errMessage_eq_spec]

theorem ask_inbox_http_error_message_extraction_witness :
    ask_inbox env404 "what is new" =
      ([.askCall "what is new"], .ok (.str "I couldn't reach the inbox service: not found")) := by
  have h := ask_inbox_http_error_message_extraction env404 "what is new" resp404
    (by decide) rfl (by decide)
  rw [h]
  rfl

/-- C2: when the ask response starts a job and no poll attempt observes
a terminal status (each attempt gets a response that is non-200 or still
pending), the turn performs exactly 45 poll calls — each preceded by the
fixed 2-unit sleep, non-200 responses counting against the cap — then
returns the fixed timeout message; the trace contains no 46th poll. -/
theorem ask_inbox_timeout_after_exactly_45_polls (env : Env) (q : String) (r : HttpResp)
    (fs : List (String × JVal))
    (hq : pyLower (pyStrip q) ∉ SMALL_TALK)
    (hask : env.askResult = .ok r)
    (hlt : r.status < 400)
    (hp : r.parsed = some (.obj fs))
    (hproc : optIsStr (lookupField fs "status") "processing" = true)
    (hjob : otruthy (lookupField fs "jobId") = true)
    (hpoll : ∀ j, j < 45 → NonTerminalPoll (env.pollResult j)) :
    ask_inbox env q =
      (Event.askCall q :: Event.sayAck (getD fs "message" (.str "This may take a minute.")) ::
        (List.range' 0 45).flatMap (pollAttempt (pyStr ((lookupField fs "jobId").getD .null))),
       .ok (.str "That is taking longer than expected. Please try again.")) ∧
    countPolls (ask_inbox env q).1 = 45 := by
  have hskip := pollLoop_skip env (pyStr ((lookupField fs "jobId").getD .null)) 45 0 45
    le_rfl (fun j hj => by simpa using hpoll j hj)
  have h1 : ask_inbox env q =
      (Event.askCall q :: Event.sayAck (getD fs "message" (.str "This may take a minute.")) ::
        (List.range' 0 45).flatMap (pollAttempt (pyStr ((lookupField fs "jobId").getD .null))),
       .ok (.str "That is taking longer than expected. Please try again.")) := by
    rw [ask_inbox_processing_unfold env q r fs hq hask hlt hp hproc hjob, hskip]
    simp [pollLoop]
  refine ⟨h1, ?_⟩
  rw [h1]
  simp [countPolls, isPollEvent, List.countP_cons]
  have := countPolls_flatMap_pollAttempt (pyStr ((lookupField fs "jobId").getD .null))
    (List.range' 0 45)
  simpa [countPolls] using this

theorem ask_inbox_timeout_after_exactly_45_polls_witness :
    (ask_inbox envAllPending "summarize my attachments").2 =
      .ok (.str "That is taking longer than expected. Please try again.") ∧
    countPolls (ask_inbox envAllPending "summarize my attachments").1 = 45 := by
  have h := ask_inbox_timeout_after_exactly_45_polls envAllPending "summarize my attachments"
    procAskResp [("status", .str "processing"), ("jobId", .str "j1")]
    (by decide) rfl (by decide) rfl (by decide) (by decide)
    (fun j hj => ⟨pendingResp, rfl, Or.inr ⟨[("status", .str "pending")], rfl, by decide, by decide⟩⟩)
  exact ⟨by rw [h.1], h.2⟩

theorem countPolls_publishOpt (env : Env) (v : JVal) :
    countPolls (if truthy v = true then publish_sources env v else []) = 0 := by
  by_cases h : truthy v = true
  · cases hb : env.publishFails <;> simp [h, hb, publish_sources, countPolls, isPollEvent]
  · simp [h, countPolls]

/-- C3: the first poll snapshot with a terminal status ends the turn with
no further poll calls (exactly k + 1 polls when the terminal snapshot is
attempt k). A `done` snapshot returns the job's answer (the empty string
when the `answer` field is absent), with the publish of its truthy
sources in the trace before the turn ends; an `error` snapshot returns
the sentence `There was an error: ` followed by the job's error (or
`unknown` when the field is absent). -/
theorem ask_inbox_first_terminal_poll_ends_turn (env : Env) (q : String) (r : HttpResp)
    (fs : List (String × JVal)) (k : Nat) (r2 : HttpResp) (gs : List (String × JVal))
    (hq : pyLower (pyStrip q) ∉ SMALL_TALK)
    (hask : env.askResult = .ok r)
    (hlt : r.status < 400)
    (hp : r.parsed = some (.obj fs))
    (hproc : optIsStr (lookupField fs "status") "processing" = true)
    (hjob : otruthy (lookupField fs "jobId") = true)
    (hk : k < 45)
    (hpre : ∀ j, j < k → NonTerminalPoll (env.pollResult j))
    (hterm : env.pollResult k = .ok r2)
    (h200 : r2.status = 200)
    (hp2 : r2.parsed = some (.obj gs)) :
    (optIsStr (lookupField gs "status") "done" = true →
      ask_inbox env q =
        (Event.askCall q :: Event.sayAck (getD fs "message" (.str "This may take a minute.")) ::
          ((List.range' 0 k).flatMap (pollAttempt (pyStr ((lookupField fs "jobId").getD .null))) ++
            (pollAttempt (pyStr ((lookupField fs "jobId").getD .null)) k ++
              (if truthy (sourcesOrEmpty gs) = true then publish_sources env (sourcesOrEmpty gs) else []))),
         .ok (getD gs "answer" (.str ""))) ∧
      countPolls (ask_inbox env q).1 = k + 1) ∧
    (optIsStr (lookupField gs "status") "done" = false →
     optIsStr (lookupField gs "status") "error" = true →
      ask_inbox env q =
        (Event.askCall q :: Event.sayAck (getD fs "message" (.str "This may take a minute.")) ::
          ((List.range' 0 k).flatMap (pollAttempt (pyStr ((lookupField fs "jobId").getD .null))) ++
            pollAttempt (pyStr ((lookupField fs "jobId").getD .null)) k),
         .ok (.str ("There was an error: " ++ pyStr (getD gs "error" (.str "unknown"))))) ∧
      countPolls (ask_inbox env q).1 = k + 1) := by
  have hskip := pollLoop_skip env (pyStr ((lookupField fs "jobId").getD .null)) k 0 45
    (Nat.le_of_lt hk) (fun j hj => by simpa using hpre j hj)
  simp only [Nat.zero_add] at hskip
  obtain ⟨m, hm⟩ : ∃ m, 45 - k = m + 1 := ⟨44 - k, by omega⟩
  constructor
  · intro hd
    have hloop : pollLoop env (pyStr ((lookupField fs "jobId").getD .null)) k (45 - k) =
        (pollAttempt (pyStr ((lookupField fs "jobId").getD .null)) k ++
          (if truthy (sourcesOrEmpty gs) = true then publish_sources env (sourcesOrEmpty gs) else []),
         .ok (getD gs "answer" (.str ""))) := by
      rw [hm]
      exact pollLoop_done env (pyStr ((lookupField fs "jobId").getD .null)) k m r2 gs
        hterm h200 hp2 hd
    have h1 : ask_inbox env q =
        (Event.askCall q :: Event.sayAck (getD fs "message" (.str "This may take a minute.")) ::
          ((List.range' 0 k).flatMap (pollAttempt (pyStr ((lookupField fs "jobId").getD .null))) ++
            (pollAttempt (pyStr ((lookupField fs "jobId").getD .null)) k ++
              (if truthy (sourcesOrEmpty gs) = true then publish_sources env (sourcesOrEmpty gs) else []))),
         .ok (getD gs "answer" (.str ""))) := by
      rw [ask_inbox_processing_unfold env q r fs hq hask hlt hp hproc hjob, hskip, hloop]
    refine ⟨h1, ?_⟩
    rw [h1]
    have hA : List.countP isPollEvent
        ((List.range' 0 k).flatMap (pollAttempt (pyStr ((lookupField fs "jobId").getD .null)))) = k := by
      have := countPolls_flatMap_pollAttempt (pyStr ((lookupField fs "jobId").getD .null))
        (List.range' 0 k)
      simpa [countPolls] using this
    have hB : List.countP isPollEvent
        (pollAttempt (pyStr ((lookupField fs "jobId").getD .null)) k) = 1 := by
      simp [pollAttempt, isPollEvent]
    have hC : List.countP isPollEvent
        (if truthy (sourcesOrEmpty gs) = true then publish_sources env (sourcesOrEmpty gs) else []) = 0 := by
      have := countPolls_publishOpt env (sourcesOrEmpty gs)
      simpa [countPolls] using this
    simp [countPolls, List.countP_cons, List.countP_append, isPollEvent, hA, hB, hC]
  · intro hd he
    have hloop : pollLoop env (pyStr ((lookupField fs "jobId").getD .null)) k (45 - k) =
        (pollAttempt (pyStr ((lookupField fs "jobId").getD .null)) k,
         .ok (.str ("There was an error: " ++ pyStr (getD gs "error" (.str "unknown"))))) := by
      rw [hm]
      exact pollLoop_error env (pyStr ((lookupField fs "jobId").getD .null)) k m r2 gs
        hterm h200 hp2 hd he
    have h1 : ask_inbox env q =
        (Event.askCall q :: Event.sayAck (getD fs "message" (.str "This may take a minute.")) ::
          ((List.range' 0 k).flatMap (pollAttempt (pyStr ((lookupField fs "jobId").getD .null))) ++
            pollAttempt (pyStr ((lookupField fs "jobId").getD .null)) k),
         .ok (.str ("There was an error: " ++ pyStr (getD gs "error" (.str "unknown"))))) := by
      rw [ask_inbox_processing_unfold env q r fs hq hask hlt hp hproc hjob, hskip, hloop]
    refine ⟨h1, ?_⟩
    rw [h1]
    have hA : List.countP isPollEvent
        ((List.range' 0 k).flatMap (pollAttempt (pyStr ((lookupField fs "jobId").getD .null)))) = k := by
      have := countPolls_flatMap_pollAttempt (pyStr ((lookupField fs "jobId").getD .null))
        (List.range' 0 k)
      simpa [countPolls] using this
    have hB : List.countP isPollEvent
        (pollAttempt (pyStr ((lookupField fs "jobId").getD .null)) k) = 1 := by
      simp [pollAttempt, isPollEvent]
    simp [countPolls, List.countP_cons, List.countP_append, isPollEvent, hA, hB]

theorem ask_inbox_first_terminal_poll_ends_turn_witness :
    ask_inbox envDoneAt3 "summarize the attachment" =
      ([.askCall "summarize the attachment", .sayAck (.str "This may take a minute."),
        .sleepUnits 2, .pollCall "j1" 0, .sleepUnits 2, .pollCall "j1" 1,
        .sleepUnits 2, .pollCall "j1" 2, .sleepUnits 2, .pollCall "j1" 3,
        .publish (.arr [.obj [("id", .str "m1")]])],
       .ok (.str "Done.")) ∧
    countPolls (ask_inbox envDoneAt3 "summarize the attachment").1 = 4 := by
  have h := ask_inbox_first_terminal_poll_ends_turn envDoneAt3 "summarize the attachment"
    procAskResp [("status", .str "processing"), ("jobId", .str "j1")] 3 doneResp
    [("status", .str "done"), ("answer", .str "Done."),
     ("sources", .arr [.obj [("id", .str "m1")]])]
    (by decide) rfl (by decide) rfl (by decide) (by decide) (by decide)
    (fun j hj => ⟨pendingResp, by simp [envDoneAt3, hj],
      Or.inr ⟨[("status", .str "pending")], rfl, by decide, by decide⟩⟩)
    (by simp [envDoneAt3]) (by decide) rfl
  have h2 := h.1 (by decide)
  refine ⟨?_, h2.2⟩
  rw [h2.1]
  rfl

theorem countPublishes_publish_sources (env : Env) (v : JVal) :
    countPublishes (publish_sources env v) = 1 := by
  cases hb : env.publishFails <;>
    simp [publish_sources, hb, countPublishes, isPublishEvent]

/-- C6: an immediate ask response (status below 400, JSON dict body not
marked processing) returns the body's `answer` field, or the fixed
`No answer returned.` fallback when it is absent; when the body's
sources are truthy, the trace holds exactly one publish, of exactly
those sources, placed before the turn completes. -/
theorem ask_inbox_immediate_answer_and_publish (env : Env) (q : String) (r : HttpResp)
    (fs : List (String × JVal))
    (hq : pyLower (pyStrip q) ∉ SMALL_TALK)
    (hask : env.askResult = .ok r)
    (hlt : r.status < 400)
    (hp : r.parsed = some (.obj fs))
    (hnp : optIsStr (lookupField fs "status") "processing" = false) :
    ask_inbox env q =
      (Event.askCall q ::
        (if truthy (sourcesOrEmpty fs) = true then publish_sources env (sourcesOrEmpty fs) else []),
       .ok (getD fs "answer" (.str "No answer returned."))) ∧
    (truthy (sourcesOrEmpty fs) = true → countPublishes (ask_inbox env q).1 = 1) := by
  have hge : ¬ (r.status ≥ 400) := by omega
  have h1 : ask_inbox env q =
      (Event.askCall q ::
        (if truthy (sourcesOrEmpty fs) = true then publish_sources env (sourcesOrEmpty fs) else []),
       .ok (getD fs "answer" (.str "No answer returned."))) := by
    simp [ask_inbox, hq, hask, hge, hp, hnp]
  refine ⟨h1, fun hsrc => ?_⟩
  rw [h1]
  have := countPublishes_publish_sources env (sourcesOrEmpty fs)
  simp [countPublishes, List.countP_cons, isPublishEvent, hsrc] at this ⊢
  exact this

theorem ask_inbox_immediate_answer_and_publish_witness :
    ask_inbox envImmediate "how many unread emails do I have" =
      ([.askCall "how many unread emails do I have", .publish (.arr [.obj [("id", .str "m1")]])],
       .ok (.str "You have 3 unread emails.")) ∧
    countPublishes (ask_inbox envImmediate "how many unread emails do I have").1 = 1 := by
  have h := ask_inbox_immediate_answer_and_publish envImmediate
    "how many unread emails do I have" immResp
    [("answer", .str "You have 3 unread emails."), ("sources", .arr [.obj [("id", .str "m1")]])]
    (by decide) rfl (by decide) rfl (by decide)
  refine ⟨?_, h.2 (by decide)⟩
  rw [h.1]
  rfl

/-- C1 (amended): whenever the backend behaviour is well formed — the
ask POST yields a response whose body is a JSON dict unless its status
is at least 400, and every poll GET yields a response whose 200-status
body is a JSON dict — the turn resolves to a returned value and no
exception escapes `ask_inbox`. (As stated over all behaviours the claim
fails: a transport failure during a poll GET, or a non-JSON success
body, raises out of the turn path; see the counterexample.) -/
theorem ask_inbox_returns_string_on_wellformed_backend (env : Env) (q : String) (r : HttpResp)
    (hask : env.askResult = .ok r)
    (hgood : 400 ≤ r.status ∨ ∃ fs, r.parsed = some (.obj fs))
    (hpoll : ∀ j, j < 45 → GoodPoll (env.pollResult j)) :
    ∃ v, (ask_inbox env q).2 = .ok v := by
  by_cases hq : pyLower (pyStrip q) ∈ SMALL_TALK
  · exact ⟨.str "Hi! Ask me anything about your inbox, emails, or attachments.",
      by simp [ask_inbox, hq]⟩
  · by_cases h4 : 400 ≤ r.status
    · exact ⟨.str ("I couldn't reach the inbox service: " ++ errMessage r),
        by simp [ask_inbox, hq, hask, ge_iff_le, h4]⟩
    · obtain ⟨fs, hp⟩ : ∃ fs, r.parsed = some (.obj fs) := hgood.resolve_left h4
      by_cases hproc : optIsStr (lookupField fs "status") "processing" = true
      · by_cases hjob : otruthy (lookupField fs "jobId") = true
        · obtain ⟨v, hv⟩ := pollLoop_ok_of_good env
            (pyStr ((lookupField fs "jobId").getD .null)) 45 0
            (fun j hj => by simpa using hpoll j hj)
          exact ⟨v, by simp [ask_inbox, hq, hask, ge_iff_le, h4, hp, hproc, hjob, hv]⟩
        · have hjob' : otruthy (lookupField fs "jobId") = false := by simpa using hjob
          exact ⟨.str "I couldn't start the background job.",
            by simp [ask_inbox, hq, hask, ge_iff_le, h4, hp, hproc, hjob']⟩
      · have hproc' : optIsStr (lookupField fs "status") "processing" = false := by
          simpa using hproc
        exact ⟨getD fs "answer" (.str "No answer returned."),
          by simp [ask_inbox, hq, hask, ge_iff_le, h4, hp, hproc']⟩

theorem ask_inbox_returns_string_on_wellformed_backend_witness :
    ∃ v, (ask_inbox envAllPending "list my emails").2 = .ok v :=
  ask_inbox_returns_string_on_wellformed_backend envAllPending "list my emails" procAskResp rfl
    (Or.inr ⟨[("status", .str "processing"), ("jobId", .str "j1")], rfl⟩)
    (fun _ _ => ⟨pendingResp, rfl, Or.inr ⟨[("status", .str "pending")], rfl⟩⟩)

/-- C1 counterexample: with the job started and the first poll GET
suffering a transport failure, the exception escapes `ask_inbox` after
one poll attempt — the turn does not resolve to a spoken string. -/
theorem ask_inbox_poll_transport_error_escapes :
    ask_inbox envPollRaises "list my emails" =
      ([.askCall "list my emails", .sayAck (.str "This may take a minute."),
        .sleepUnits 2, .pollCall "j1" 0],
       .error .transportError) := by
  rfl

/-- C8: missing `update_tts_config` arguments keep the current setting;
a call whose resulting (model, voice) pair equals the current pair
returns the state unchanged — no speech-engine reconstruction, no log
entry (both counters untouched); a call changing only the voice sets the
voice and leaves the model field unchanged. -/
theorem update_tts_config_noop_and_partial_update (s : TTSState) (m v : Option String)
    (v2 : String) :
    update_tts_config s none none = s ∧
    (update_tts_config s none v).tts_model = s.tts_model ∧
    (update_tts_config s m none).tts_voice = s.tts_voice ∧
    (pyOrStr m s.tts_model = s.tts_model → pyOrStr v s.tts_voice = s.tts_voice →
      update_tts_config s m v = s) ∧
    (v2 ≠ "" → v2 ≠ s.tts_voice →
      (update_tts_config s none (some v2)).tts_model = s.tts_model ∧
      (update_tts_config s none (some v2)).tts_voice = v2) := by
  refine ⟨?_, ?_, ?_, ?_, ?_⟩
  · simp [update_tts_config, pyOrStr]
  · simp only [update_tts_config]
    split
    · rfl
    · simp [pyOrStr]
  · simp only [update_tts_config]
    split
    · rfl
    · simp [pyOrStr]
  · intro h1 h2
    simp [update_tts_config, h1, h2]
  · intro h1 h2
    constructor
    · simp only [update_tts_config]
      split
      · rfl
      · simp [pyOrStr]
    · simp [update_tts_config, pyOrStr, h1, h2]

theorem update_tts_config_noop_and_partial_update_witness :
    update_tts_config baseTTS none none = baseTTS ∧
    update_tts_config baseTTS (some "gpt-4o-mini-tts") (some "coral") = baseTTS ∧
    (update_tts_config baseTTS none (some "alloy")).tts_model = "gpt-4o-mini-tts" ∧
    (update_tts_config baseTTS none (some "alloy")).tts_voice = "alloy" := by
  have h := update_tts_config_noop_and_partial_update baseTTS
    (some "gpt-4o-mini-tts") (some "coral") "alloy"
  exact ⟨h.1, h.2.2.2.1 (by decide) (by decide),
    (h.2.2.2.2 (by decide) (by decide)).1, (h.2.2.2.2 (by decide) (by decide)).2⟩

/-- C9 (amended): a control packet on another topic, or with an
undecodable payload, or whose payload decodes to a JSON dict with a
declared type other than `tts_config`, is dropped: the handler returns
the TTS state unchanged and raises nothing. (As stated over all
mistyped messages the claim fails: a payload that decodes to non-dict
JSON — for which the declared type is likewise not `tts_config` —
raises `AttributeError` into the dispatcher, because the type check
runs outside the handler's `try` block; see the counterexample.) -/
theorem on_data_drops_malformed_messages (s : TTSState) (p : DataPacket)
    (h : p.topic ≠ TTS_CONFIG_TOPIC ∨ p.payload = .bad ∨
         ∃ fs, p.payload = .ok (.obj fs) ∧
           optIsStr (lookupField fs "type") "tts_config" = false) :
    on_data s p = .ok s := by
  rcases h with ht | hb | ⟨fs, hp, hty⟩
  · simp [on_data, ht]
  · by_cases ht : p.topic = TTS_CONFIG_TOPIC
    · simp [on_data, ht, hb]
    · simp [on_data, ht]
  · by_cases ht : p.topic = TTS_CONFIG_TOPIC
    · simp [on_data, ht, hp, hty]
    · simp [on_data, ht]

theorem on_data_drops_malformed_messages_witness :
    on_data baseTTS wrongTypePacket = .ok baseTTS :=
  on_data_drops_malformed_messages baseTTS wrongTypePacket
    (Or.inr (Or.inr ⟨[("type", .str "sources")], rfl, by decide⟩))

/-- C9 counterexample: a packet on the TTS-config topic whose payload is
the JSON array `[]` — valid JSON, so it passes the `try` block, but not
a dict — raises `AttributeError` out of the handler. -/
theorem on_data_nonobject_payload_raises :
    on_data baseTTS arrayPayloadPacket = .error .attributeError := by
  rfl

theorem update_preserves_nonempty (s : TTSState) (m v : Option String) :
    (s.tts_model ≠ "" → (update_tts_config s m v).tts_model ≠ "") ∧
    (s.tts_voice ≠ "" → (update_tts_config s m v).tts_voice ≠ "") := by
  simp only [update_tts_config]
  split
  · exact ⟨fun h => h, fun h => h⟩
  · constructor
    · intro h
      cases m with
      | none => simpa [pyOrStr] using h
      | some x =>
        by_cases hx : x = "" <;> simp [pyOrStr, hx, h]
    · intro h
      cases v with
      | none => simpa [pyOrStr] using h
      | some x =>
        by_cases hx : x = "" <;> simp [pyOrStr, hx, h]

theorem run_updates_nonempty (us : List (Option String × Option String)) :
    ∀ s : TTSState, s.tts_model ≠ "" → s.tts_voice ≠ "" →
      (run_updates s us).tts_model ≠ "" ∧ (run_updates s us).tts_voice ≠ "" := by
  induction us with
  | nil => exact fun s hm hv => ⟨hm, hv⟩
  | cons u rest ih =>
    intro s hm hv
    cases u with
    | mk m v =>
      exact ih (update_tts_config s m v)
        ((update_preserves_nonempty s m v).1 hm)
        ((update_preserves_nonempty s m v).2 hv)

/-- C10: an empty-string model or voice argument behaves exactly like an
absent argument (Python falsiness keeps the current value), so no
sequence of updates starting from nonempty settings can ever make the
stored model or voice empty. -/
theorem update_tts_config_empty_string_like_absent (s : TTSState) (m v : Option String)
    (us : List (Option String × Option String)) :
    update_tts_config s (some "") v = update_tts_config s none v ∧
    update_tts_config s m (some "") = update_tts_config s m none ∧
    (s.tts_model ≠ "" → s.tts_voice ≠ "" →
      (run_updates s us).tts_model ≠ "" ∧ (run_updates s us).tts_voice ≠ "") := by
  exact ⟨by simp [update_tts_config, pyOrStr], by simp [update_tts_config, pyOrStr],
    fun hm hv => run_updates_nonempty us s hm hv⟩

theorem update_tts_config_empty_string_like_absent_witness :
    update_tts_config baseTTS (some "") (some "alloy") =
      update_tts_config baseTTS none (some "alloy") ∧
    update_tts_config baseTTS (some "nova") (some "") =
      update_tts_config baseTTS (some "nova") none ∧
    ((run_updates baseTTS [(some "", some "alloy"), (some "nova", none)]).tts_model ≠ "" ∧
     (run_updates baseTTS [(some "", some "alloy"), (some "nova", none)]).tts_voice ≠ "") := by
  have h := update_tts_config_empty_string_like_absent baseTTS (some "nova") (some "alloy")
    [(some "", some "alloy"), (some "nova", none)]
  exact ⟨h.1, h.2.1, h.2.2 (by decide) (by decide)⟩
